import Mathlib

/-!
Verification of the SCST CD-ROM device handler (`src/dev_handlers/scst_cdrom.c`)
against its natural-language specification.

The C source is shallowly embedded: the per-device private record, the attach
probe loop, the detach/parse/done callbacks and the block-shift setter are
translated to pure Lean functions.  External framework collaborators that are
part of this repository but not present under `src/` (`scsi_execute`,
`scst_analyze_sense`, `scst_obtain_device_parameters`, the generic parse
routine, and the compile-time constant `SCST_DEV_UA_RETRIES`) are modelled as
components of an explicit environment, or — where the spec pins down their
behaviour — as definitions modelled from the spec.
-/

namespace ScstCdrom

/-- `#define CDROM_DEF_BLOCK_SHIFT 11` (scst_cdrom.c line 37). -/
def CDROM_DEF_BLOCK_SHIFT : Int := 11

/-- Linux errno `ENODEV` (the code returns `-ENODEV`). -/
def ENODEV : Int := 19

/-- Linux errno `ENOMEM` (the code returns `-ENOMEM`). -/
def ENOMEM : Int := 12

/-- Modelled from the spec: `SCST_CMD_STATE_DEFAULT`, the framework's default
dispatch state, defined in `scst.h` which is not under `src/`.  Its concrete
value is immaterial to every claim; the claims only require that `cdrom_parse`
returns this distinguished constant unconditionally. -/
def SCST_CMD_STATE_DEFAULT : Int := 0

/-- Modelled from the spec: `SCST_PASSTHROUGH_RETRIES`, the fixed
transport-level passthrough retry count, defined in `scst.h` which is not
under `src/`.  Its concrete value is immaterial to every claim; the claims
only require that `cdrom_parse` stores this distinguished constant. -/
def SCST_PASSTHROUGH_RETRIES : Int := 0

/-- `struct cdrom_params` (scst_cdrom.c lines 39-41): the Device Private
Record, holding the block-size exponent. -/
structure cdrom_params where
  block_shift : Int
deriving DecidableEq, Repr

/-- The part of `struct scsi_device` the handler reads: `scsi_dev->type`
(media type).  `scsi_level` and `lun` only shape CDB byte 1, which no claim
observes, so they are omitted. -/
structure scsi_device where
  type : Int
deriving DecidableEq, Repr

/-- The part of `struct scst_device` the handler touches: the optional
underlying SCSI device, the expected device type `dev->type`, and the
private-state pointer `dev->dh_priv` (a nullable pointer, modelled as
`Option cdrom_params`). -/
structure scst_device where
  scsi_dev : Option scsi_device
  type : Int
  dh_priv : Option cdrom_params
deriving DecidableEq, Repr

/-- Result of one `scsi_execute` call: the return code `rc`, the sense
buffer contents, and the data buffer contents written by the device.  Bytes
are read back reduced mod 256 (they are `uint8_t` in C). -/
structure ExecResult where
  rc : Int
  sense : List Nat
  buffer : List Nat
deriving Repr

/-- Environment of external collaborators used by `cdrom_attach`.  All of
them belong to this repository but live outside `src/` (scst_lib.c / scst.h /
the kernel), so they are kept abstract:
* `uaRetries` — the compile-time constant `SCST_DEV_UA_RETRIES` (scst.h);
* `exec i` — the outcome of the `i`-th `scsi_execute` READ_CAPACITY attempt
  (0-indexed);
* `analyze_sense_ua s` — whether `scst_analyze_sense(s, …, UNIT_ATTENTION, 0, 0)`
  classifies sense data `s` as a valid-key unit-attention condition;
* `obtain_res` — the return value of `scst_obtain_device_parameters(dev)`;
* `alloc_params_ok` / `alloc_buffer_ok` — whether the `kzalloc` of the record
  and the `kmalloc` of the 512-byte scratch buffer succeed. -/
structure Env where
  uaRetries : Nat
  exec : Nat → ExecResult
  analyze_sense_ua : List Nat → Bool
  obtain_res : Int
  alloc_params_ok : Bool
  alloc_buffer_ok : Bool

/-- Outcome of the READ_CAPACITY retry loop (scst_cdrom.c lines 105-135):
either the loop `break`s with the final `rc` and data buffer after some
number of attempts, or the retry budget is exhausted (`!--retries`). -/
inductive ProbeOutcome where
  | done (rc : Int) (buffer : List Nat) (attempts : Nat)
  | exhausted (attempts : Nat)
deriving DecidableEq, Repr

/-- The retry loop of `cdrom_attach` (lines 106-135).  `attempt` counts the
`scsi_execute` calls already made; `retries` is the remaining budget (the C
variable `retries`).  Each iteration executes the command; it breaks when
`rc == 0` or the sense data is not a unit-attention condition; otherwise it
decrements the budget and exhausts when the decrement reaches zero
(`if (!--retries)`).  The C counter is a signed `int` initialised with the
positive constant `SCST_DEV_UA_RETRIES`; the loop is modelled for a positive
initial budget (the `0` case is unreachable from such a start and is mapped
to immediate exhaustion). -/
def probe_loop (env : Env) (attempt : Nat) : Nat → ProbeOutcome
  | 0 => ProbeOutcome.exhausted attempt
  | retries + 1 =>
    let r := env.exec attempt
    if r.rc = 0 ∨ env.analyze_sense_ua r.sense = false then
      ProbeOutcome.done r.rc r.buffer (attempt + 1)
    else
      match retries with
      | 0 => ProbeOutcome.exhausted (attempt + 1)
      | m + 1 => probe_loop env (attempt + 1) (m + 1)

/-- Byte `i` of the response buffer, as the `uint8_t` the C code reads
(`memset` zeroes the buffer first, so a missing byte reads 0). -/
def bufByte (buf : List Nat) (i : Nat) : Nat :=
  buf.getD i 0 % 256

/-- Two's-complement reinterpretation of a natural number as a signed
32-bit `int`. -/
def toInt32 (n : Nat) : Int :=
  if n % 2 ^ 32 < 2 ^ 31 then (n % 2 ^ 32 : Int) else (n % 2 ^ 32 : Int) - 2 ^ 32

/-- `sector_size = (buffer[4] << 24) | (buffer[5] << 16) | (buffer[6] << 8) | buffer[7]`
(scst_cdrom.c lines 138-139), stored into a C `int`. -/
def read_sector_size (buf : List Nat) : Int :=
  toInt32 (bufByte buf 4 * 2 ^ 24 + bufByte buf 5 * 2 ^ 16 +
           bufByte buf 6 * 2 ^ 8 + bufByte buf 7)

/-- Structurally recursive (fuelled) binary logarithm: `log2_fuelled f n` is
`⌊log₂ n⌋` whenever `f ≥ n ≥ 1`.  The fuel makes it evaluate by kernel
reduction. -/
def log2_fuelled : Nat → Nat → Nat
  | 0, _ => 0
  | fuel + 1, n => if 2 ≤ n then log2_fuelled fuel (n / 2) + 1 else 0

/-- Modelled from the spec: `scst_calc_block_shift` (DeriveBlockShift) lives
in scst_lib.c, which is not under `src/`.  The spec requires a deterministic
power-of-two conversion such that for an exact power-of-two sector size the
returned exponent reconstructs the size (`2^e = size`); the floor binary
logarithm realises that contract. -/
def scst_calc_block_shift (sector_size : Int) : Int :=
  (log2_fuelled sector_size.toNat sector_size.toNat : Nat)

/-- Everything `cdrom_attach` did, observable to the claims: the return value
`res`, the final `dev->dh_priv`, the number of `scsi_execute` attempts, which
of the two heap allocations were performed and which were freed, and the final
contents of the record (even when it was subsequently freed). -/
structure AttachResult where
  res : Int
  dh_priv : Option cdrom_params
  attempts : Nat
  params_allocated : Bool
  buffer_allocated : Bool
  params_freed : Bool
  buffer_freed : Bool
  params_final : Option cdrom_params
deriving DecidableEq, Repr

/-- The common tail of `cdrom_attach` from label `out_free_buf` (lines
162-173): free the scratch buffer, then either publish the record into
`dev->dh_priv` (when `res == 0`) or free it. -/
def attach_finish (dev : scst_device) (attempts : Nat) (ps : cdrom_params)
    (res : Int) : AttachResult :=
  { res := res
    dh_priv := if res = 0 then some ps else dev.dh_priv
    attempts := attempts
    params_allocated := true
    buffer_allocated := true
    params_freed := if res = 0 then false else true
    buffer_freed := true
    params_final := some ps }

/-- `cdrom_attach` (scst_cdrom.c lines 64-174), translated clause by clause:
type check, the two allocations, the READ_CAPACITY retry loop, the
sector-size parse / default fallback, `scst_obtain_device_parameters`, and
the shared cleanup labels. -/
def cdrom_attach (env : Env) (dev : scst_device) : AttachResult :=
  match dev.scsi_dev with
  | none =>
      { res := -ENODEV, dh_priv := dev.dh_priv, attempts := 0
        params_allocated := false, buffer_allocated := false
        params_freed := false, buffer_freed := false, params_final := none }
  | some sdev =>
    if sdev.type ≠ dev.type then
      { res := -ENODEV, dh_priv := dev.dh_priv, attempts := 0
        params_allocated := false, buffer_allocated := false
        params_freed := false, buffer_freed := false, params_final := none }
    else if env.alloc_params_ok = false then
      { res := -ENOMEM, dh_priv := dev.dh_priv, attempts := 0
        params_allocated := false, buffer_allocated := false
        params_freed := false, buffer_freed := false, params_final := none }
    else if env.alloc_buffer_ok = false then
      -- goto out_free_params with res = -ENOMEM: the zero-initialised record
      -- is freed, dh_priv untouched.
      { res := -ENOMEM, dh_priv := dev.dh_priv, attempts := 0
        params_allocated := true, buffer_allocated := false
        params_freed := true, buffer_freed := false
        params_final := some { block_shift := 0 } }
    else
      match probe_loop env 0 env.uaRetries with
      | ProbeOutcome.exhausted n =>
          -- "UA not cleared after %d retries": set the default shift,
          -- res = -ENODEV, goto out_free_buf (skipping parameter sync).
          attach_finish dev n { block_shift := CDROM_DEF_BLOCK_SHIFT } (-ENODEV)
      | ProbeOutcome.done rc buf n =>
          let shift : Int :=
            if rc = 0 then
              let sector_size := read_sector_size buf
              if sector_size = 0 then CDROM_DEF_BLOCK_SHIFT
              else scst_calc_block_shift sector_size
            else CDROM_DEF_BLOCK_SHIFT
          attach_finish dev n { block_shift := shift } env.obtain_res

/-- Result of `cdrom_detach`: the updated device and the pointer handed to
`kfree` (`none` models `kfree(NULL)`, a no-op). -/
structure DetachResult where
  dev : scst_device
  freed : Option cdrom_params
deriving DecidableEq, Repr

/-- `cdrom_detach` (scst_cdrom.c lines 176-188): free `dev->dh_priv` and
clear it.  The C function returns `void` — it cannot fail. -/
def cdrom_detach (dev : scst_device) : DetachResult :=
  { dev := { dev with dh_priv := none }, freed := dev.dh_priv }

/-- The part of `struct scst_cmd` the handler touches: the owning device,
the transport retry count `cmd->retries`, and an abstract annotation field
standing for whatever the generic parse routine records on the command. -/
structure scst_cmd where
  dev : scst_device
  retries : Int
  annotation : Int
deriving DecidableEq, Repr

/-- `cdrom_get_block_shift` (scst_cdrom.c lines 190-198): dereference
`cmd->dev->dh_priv` and read `block_shift`.  The C code dereferences
unconditionally (the framework guarantees the record exists while commands
are in flight); a `none` record is mapped to 0, and every theorem about the
command path hypothesises a present record. -/
def cdrom_get_block_shift (cmd : scst_cmd) : Int :=
  match cmd.dev.dh_priv with
  | some params => params.block_shift
  | none => 0

/-- Modelled from the spec: `scst_cdrom_generic_parse` (scst_lib.c, not under
`src/`) is the framework's generic command-parsing routine.  Per the spec it
reads the block-size exponent supplied through the accessor and annotates the
command, read-only with respect to the Record; it is kept abstract as a
function from the supplied exponent to the annotation value. -/
structure ParseEnv where
  generic_parse : Int → Int

/-- Result of `cdrom_parse`: its return value, the updated command, and the
block-shift value the accessor supplied to the generic routine. -/
structure ParseResult where
  state : Int
  cmd : scst_cmd
  shift_supplied : Int
deriving DecidableEq, Repr

/-- `cdrom_parse` (scst_cdrom.c lines 200-209): call the generic parse
routine with the `cdrom_get_block_shift` accessor, set
`cmd->retries = SCST_PASSTHROUGH_RETRIES`, return `SCST_CMD_STATE_DEFAULT`. -/
def cdrom_parse (penv : ParseEnv) (cmd : scst_cmd) : ParseResult :=
  let shift := cdrom_get_block_shift cmd
  { state := SCST_CMD_STATE_DEFAULT
    cmd := { cmd with
              annotation := penv.generic_parse shift
              retries := SCST_PASSTHROUGH_RETRIES }
    shift_supplied := shift }

/-- `cdrom_set_block_shift` (scst_cdrom.c lines 211-223): store the revised
exponent into the record behind `cmd->dev->dh_priv`, replacing the sentinel
0 by the default.  As with the accessor, the C code dereferences the pointer
unconditionally; an absent record leaves the command unchanged and every
theorem hypothesises presence. -/
def cdrom_set_block_shift (cmd : scst_cmd) (block_shift : Int) : scst_cmd :=
  match cmd.dev.dh_priv with
  | some params =>
      let params' :=
        if block_shift ≠ 0 then { params with block_shift := block_shift }
        else { params with block_shift := CDROM_DEF_BLOCK_SHIFT }
      { cmd with dev := { cmd.dev with dh_priv := some params' } }
  | none => cmd

/-! ### Concrete fixtures used by counterexamples and witnesses -/

/-- A well-formed device: underlying SCSI device present, matching type
(TYPE_ROM = 5), no private state yet. -/
def devOK : scst_device :=
  { scsi_dev := some { type := 5 }, type := 5, dh_priv := none }

/-- A device whose underlying SCSI device is absent. -/
def devNoScsi : scst_device :=
  { scsi_dev := none, type := 5, dh_priv := none }

/-- A transport on which every READ_CAPACITY attempt fails with sense data
classified as unit attention, retry budget 3. -/
def envAllUA : Env :=
  { uaRetries := 3
    exec := fun _ => { rc := 1, sense := [70, 0, 6], buffer := [] }
    analyze_sense_ua := fun _ => true
    obtain_res := 0
    alloc_params_ok := true
    alloc_buffer_ok := true }

/-- A transport whose first attempt fails with sense data that is not a
unit-attention condition. -/
def envHardFail : Env :=
  { uaRetries := 3
    exec := fun _ => { rc := 1, sense := [70, 0, 4], buffer := [] }
    analyze_sense_ua := fun _ => false
    obtain_res := 0
    alloc_params_ok := true
    alloc_buffer_ok := true }

/-- READ_CAPACITY response whose bytes 4..7 hold 2048 big-endian. -/
def buf2048 : List Nat := [0, 0, 0, 0, 0, 0, 8, 0]

/-- A transport whose first attempt succeeds reporting sector size 2048. -/
def envOK2048 : Env :=
  { uaRetries := 3
    exec := fun _ => { rc := 0, sense := [], buffer := buf2048 }
    analyze_sense_ua := fun _ => false
    obtain_res := 0
    alloc_params_ok := true
    alloc_buffer_ok := true }

/-- Like `envHardFail` but `scst_obtain_device_parameters` fails with -EIO. -/
def envSyncFail : Env :=
  { envHardFail with obtain_res := -5 }

/-- A command on an attached device whose record holds exponent 12. -/
def cmdOK : scst_cmd :=
  { dev := { scsi_dev := some { type := 5 }, type := 5
             dh_priv := some { block_shift := 12 } }
    retries := 7
    annotation := 0 }

/-- An arbitrary concrete generic-parse collaborator. -/
def penv0 : ParseEnv := { generic_parse := fun s => s + 100 }

/-! ### Helper lemmas about the probe loop -/

/-- If every attempt fails with unit-attention sense, the loop started with a
positive budget `r + 1` at attempt counter `a` exhausts the budget after
exactly `r + 1` further attempts. -/
theorem probe_loop_all_ua (env : Env)
    (hall : ∀ i, (env.exec i).rc ≠ 0 ∧ env.analyze_sense_ua (env.exec i).sense = true) :
    ∀ r a, probe_loop env a (r + 1) = ProbeOutcome.exhausted (a + (r + 1)) := by
  intro r
  induction r with
  | zero =>
      intro a
      rw [probe_loop.eq_def]
      simp [(hall a).1, (hall a).2]
  | succ m ih =>
      intro a
      have h1 := (hall a).1
      have h2 := (hall a).2
      have hstep : probe_loop env a (m + 1 + 1) = probe_loop env (a + 1) (m + 1) := by
        rw [probe_loop.eq_def]
        simp [h1, h2]
      rw [hstep, ih (a + 1)]
      congr 1
      omega

/-- If the first attempt breaks the loop (success, or sense not classified as
unit attention), a loop with positive budget returns `done` after exactly one
attempt, carrying that attempt's `rc` and buffer. -/
theorem probe_loop_first_break (env : Env) (r a : Nat)
    (h : (env.exec a).rc = 0 ∨ env.analyze_sense_ua (env.exec a).sense = false) :
    probe_loop env a (r + 1) =
      ProbeOutcome.done (env.exec a).rc (env.exec a).buffer (a + 1) := by
  rw [probe_loop.eq_def]
  rcases h with h | h <;> simp [h]

/-! ### Claim C1 -/

/-- C1, counterexample.  On the fixture where every READ_CAPACITY attempt
fails with unit-attention sense (`envAllUA`, budget 3), `cdrom_attach` does
perform exactly 3 attempts and does set the record's `block_shift` to 11, but
it then returns `-ENODEV` — not success as the claim states: the record is
freed and never published. -/
theorem C1_counterexample :
    (cdrom_attach envAllUA devOK).attempts = envAllUA.uaRetries ∧
    (cdrom_attach envAllUA devOK).params_final = some { block_shift := 11 } ∧
    (cdrom_attach envAllUA devOK).res = -19 ∧
    ¬ (cdrom_attach envAllUA devOK).res = 0 ∧
    (cdrom_attach envAllUA devOK).params_freed = true := by
  decide

/-- C1, amended.  If every capacity-query attempt fails with sense data
classified as unit attention, `cdrom_attach` performs exactly
`SCST_DEV_UA_RETRIES` attempts and sets the record's `block_shift` to the
default exponent 11, but attach then FAILS with `-ENODEV`: the record and the
scratch buffer are both freed, `dev->dh_priv` is left unchanged, and
parameter synchronization is skipped. -/
theorem C1_ua_exhaustion (env : Env) (dev : scst_device) (sdev : scsi_device)
    (hdev : dev.scsi_dev = some sdev) (hty : sdev.type = dev.type)
    (hp : env.alloc_params_ok = true) (hb : env.alloc_buffer_ok = true)
    (hr : 1 ≤ env.uaRetries)
    (hall : ∀ i, (env.exec i).rc ≠ 0 ∧ env.analyze_sense_ua (env.exec i).sense = true) :
    (cdrom_attach env dev).attempts = env.uaRetries ∧
    (cdrom_attach env dev).params_final = some { block_shift := CDROM_DEF_BLOCK_SHIFT } ∧
    (cdrom_attach env dev).res = -ENODEV ∧
    (cdrom_attach env dev).params_freed = true ∧
    (cdrom_attach env dev).buffer_freed = true ∧
    (cdrom_attach env dev).dh_priv = dev.dh_priv := by
  obtain ⟨r, hr'⟩ : ∃ r, env.uaRetries = r + 1 := ⟨env.uaRetries - 1, by omega⟩
  rw [cdrom_attach.eq_def, hdev, hr', probe_loop_all_ua env hall r 0]
  simp [hty, hp, hb, attach_finish, ENODEV]

/-- C1, witness for `C1_ua_exhaustion` at the concrete fixture. -/
theorem C1_witness :
    (cdrom_attach envAllUA devOK).attempts = envAllUA.uaRetries ∧
    (cdrom_attach envAllUA devOK).params_final = some { block_shift := CDROM_DEF_BLOCK_SHIFT } ∧
    (cdrom_attach envAllUA devOK).res = -ENODEV ∧
    (cdrom_attach envAllUA devOK).params_freed = true ∧
    (cdrom_attach envAllUA devOK).buffer_freed = true ∧
    (cdrom_attach envAllUA devOK).dh_priv = devOK.dh_priv :=
  C1_ua_exhaustion envAllUA devOK { type := 5 } rfl rfl rfl rfl (by decide)
    (fun i => ⟨one_ne_zero, rfl⟩)

/-! ### Claim C2 -/

/-- C2: if the first capacity-query attempt fails and its sense data is not
classified as unit attention, `cdrom_attach` performs exactly one attempt,
falls back to the default exponent 11, and (parameter synchronization
succeeding) returns success with the record published in `dev->dh_priv`. -/
theorem C2_hard_failure_fallback (env : Env) (dev : scst_device) (sdev : scsi_device)
    (hdev : dev.scsi_dev = some sdev) (hty : sdev.type = dev.type)
    (hp : env.alloc_params_ok = true) (hb : env.alloc_buffer_ok = true)
    (hr : 1 ≤ env.uaRetries)
    (hrc : (env.exec 0).rc ≠ 0)
    (hua : env.analyze_sense_ua (env.exec 0).sense = false)
    (hsync : env.obtain_res = 0) :
    (cdrom_attach env dev).attempts = 1 ∧
    (cdrom_attach env dev).res = 0 ∧
    (cdrom_attach env dev).dh_priv = some { block_shift := CDROM_DEF_BLOCK_SHIFT } ∧
    (cdrom_attach env dev).buffer_freed = true ∧
    (cdrom_attach env dev).params_freed = false := by
  obtain ⟨r, hr'⟩ : ∃ r, env.uaRetries = r + 1 := ⟨env.uaRetries - 1, by omega⟩
  rw [cdrom_attach.eq_def, hdev, hr', probe_loop_first_break env r 0 (Or.inr hua)]
  simp [hty, hp, hb, attach_finish, hrc, hsync]

/-- C2, witness for `C2_hard_failure_fallback` at the concrete fixture. -/
theorem C2_witness :
    (cdrom_attach envHardFail devOK).attempts = 1 ∧
    (cdrom_attach envHardFail devOK).res = 0 ∧
    (cdrom_attach envHardFail devOK).dh_priv = some { block_shift := CDROM_DEF_BLOCK_SHIFT } ∧
    (cdrom_attach envHardFail devOK).buffer_freed = true ∧
    (cdrom_attach envHardFail devOK).params_freed = false :=
  C2_hard_failure_fallback envHardFail devOK { type := 5 } rfl rfl rfl rfl
    (by decide) (by decide) rfl rfl

/-! ### Claim C3 -/

/-- C3: when the retry loop ends with a successful capacity query
(`rc == 0`), `cdrom_attach` parses response bytes 4..7 as a big-endian sector
size and stores the default exponent 11 when that size is 0, otherwise
`scst_calc_block_shift` of the size; and on the fixture whose first attempt
succeeds reporting sector size 2048, attach performs exactly one attempt
(zero retries) and ends with exponent 11 published. -/
theorem C3_success_parses_sector_size :
    (∀ (env : Env) (dev : scst_device) (sdev : scsi_device) (buf : List Nat) (n : Nat),
      dev.scsi_dev = some sdev → sdev.type = dev.type →
      env.alloc_params_ok = true → env.alloc_buffer_ok = true →
      probe_loop env 0 env.uaRetries = ProbeOutcome.done 0 buf n →
      (cdrom_attach env dev).params_final =
        some { block_shift :=
                if read_sector_size buf = 0 then CDROM_DEF_BLOCK_SHIFT
                else scst_calc_block_shift (read_sector_size buf) }) ∧
    ((cdrom_attach envOK2048 devOK).attempts = 1 ∧
     (cdrom_attach envOK2048 devOK).res = 0 ∧
     (cdrom_attach envOK2048 devOK).dh_priv = some { block_shift := 11 }) := by
  constructor
  · intro env dev sdev buf n hdev hty hp hb hloop
    rw [cdrom_attach.eq_def, hdev, hloop]
    simp [hty, hp, hb, attach_finish]
  · decide

/-- C3, witness: the universally quantified part of
`C3_success_parses_sector_size` applied at the 2048-sector fixture. -/
theorem C3_witness :
    (cdrom_attach envOK2048 devOK).params_final =
      some { block_shift :=
              if read_sector_size buf2048 = 0 then CDROM_DEF_BLOCK_SHIFT
              else scst_calc_block_shift (read_sector_size buf2048) } :=
  C3_success_parses_sector_size.1 envOK2048 devOK { type := 5 } buf2048 1
    rfl rfl rfl rfl (by decide)

/-! ### Claim C4 -/

/-- C4: for every prior record state, `cdrom_set_block_shift` with revised
exponent 0 sets the record's `block_shift` to the default exponent 11, and
with any nonzero revised exponent overwrites it with exactly that value. -/
theorem C4_set_block_shift (cmd : scst_cmd) (p : cdrom_params) (v : Int)
    (h : cmd.dev.dh_priv = some p) :
    (cdrom_set_block_shift cmd v).dev.dh_priv =
      some { block_shift := if v = 0 then CDROM_DEF_BLOCK_SHIFT else v } := by
  rw [cdrom_set_block_shift.eq_def, h]
  by_cases hv : v = 0 <;> simp [hv]

/-- C4, witness at a concrete command whose record held exponent 12. -/
theorem C4_witness :
    (cdrom_set_block_shift cmdOK 0).dev.dh_priv =
      some { block_shift := if (0 : Int) = 0 then CDROM_DEF_BLOCK_SHIFT else 0 } :=
  C4_set_block_shift cmdOK { block_shift := 12 } 0 rfl

/-! ### Claim C5 -/

/-- C5: if the device handle's SCSI device is absent, or its media type
differs from the handler's expected type, `cdrom_attach` fails immediately
with `-ENODEV`, performs zero allocations and zero capacity-query attempts,
and leaves `dev->dh_priv` unchanged. -/
theorem C5_type_mismatch_no_alloc (env : Env) (dev : scst_device)
    (h : ∀ sdev, dev.scsi_dev = some sdev → sdev.type ≠ dev.type) :
    (cdrom_attach env dev).res = -ENODEV ∧
    (cdrom_attach env dev).attempts = 0 ∧
    (cdrom_attach env dev).params_allocated = false ∧
    (cdrom_attach env dev).buffer_allocated = false ∧
    (cdrom_attach env dev).dh_priv = dev.dh_priv := by
  rw [cdrom_attach.eq_def]
  cases hdev : dev.scsi_dev with
  | none => simp
  | some sdev => simp [h sdev hdev]

/-- C5, witness at a device with no underlying SCSI device. -/
theorem C5_witness :
    (cdrom_attach envAllUA devNoScsi).res = -ENODEV ∧
    (cdrom_attach envAllUA devNoScsi).attempts = 0 ∧
    (cdrom_attach envAllUA devNoScsi).params_allocated = false ∧
    (cdrom_attach envAllUA devNoScsi).buffer_allocated = false ∧
    (cdrom_attach envAllUA devNoScsi).dh_priv = devNoScsi.dh_priv :=
  C5_type_mismatch_no_alloc envAllUA devNoScsi (fun _ hs => Option.noConfusion hs)

/-! ### Claim C6 -/

/-- C6: if `scst_obtain_device_parameters` fails after the retry loop has
determined the exponent, `cdrom_attach` frees both the scratch buffer and the
record, leaves `dev->dh_priv` unchanged, and returns that nonzero failure
code. -/
theorem C6_sync_failure (env : Env) (dev : scst_device) (sdev : scsi_device)
    (hdev : dev.scsi_dev = some sdev) (hty : sdev.type = dev.type)
    (hp : env.alloc_params_ok = true) (hb : env.alloc_buffer_ok = true)
    (rc : Int) (buf : List Nat) (n : Nat)
    (hloop : probe_loop env 0 env.uaRetries = ProbeOutcome.done rc buf n)
    (hsync : env.obtain_res ≠ 0) :
    (cdrom_attach env dev).res = env.obtain_res ∧
    (cdrom_attach env dev).res ≠ 0 ∧
    (cdrom_attach env dev).buffer_freed = true ∧
    (cdrom_attach env dev).params_freed = true ∧
    (cdrom_attach env dev).dh_priv = dev.dh_priv := by
  rw [cdrom_attach.eq_def, hdev, hloop]
  simp [hty, hp, hb, attach_finish, hsync]

/-- C6, witness on the fixture whose parameter synchronization returns -EIO. -/
theorem C6_witness :
    (cdrom_attach envSyncFail devOK).res = envSyncFail.obtain_res ∧
    (cdrom_attach envSyncFail devOK).res ≠ 0 ∧
    (cdrom_attach envSyncFail devOK).buffer_freed = true ∧
    (cdrom_attach envSyncFail devOK).params_freed = true ∧
    (cdrom_attach envSyncFail devOK).dh_priv = devOK.dh_priv :=
  C6_sync_failure envSyncFail devOK { type := 5 } rfl rfl rfl rfl
    1 [] 1 (by decide) (by decide)

/-! ### Claim C7 -/

/-- C7: `cdrom_parse` supplies exactly the record's `block_shift` (read via
the accessor `cdrom_get_block_shift`) to the generic parsing routine, sets
the command's transport-level retry count to the fixed passthrough constant,
leaves the device (and hence the record) untouched, and unconditionally
returns the default dispatch state. -/
theorem C7_parse_reads_only (penv : ParseEnv) (cmd : scst_cmd) (p : cdrom_params)
    (h : cmd.dev.dh_priv = some p) :
    (cdrom_parse penv cmd).state = SCST_CMD_STATE_DEFAULT ∧
    (cdrom_parse penv cmd).cmd.retries = SCST_PASSTHROUGH_RETRIES ∧
    (cdrom_parse penv cmd).shift_supplied = p.block_shift ∧
    (cdrom_parse penv cmd).cmd.dev = cmd.dev ∧
    (cdrom_parse penv cmd).cmd.annotation = penv.generic_parse p.block_shift := by
  rw [cdrom_parse.eq_def, cdrom_get_block_shift.eq_def, h]
  simp

/-- C7, witness at a concrete command and generic-parse collaborator. -/
theorem C7_witness :
    (cdrom_parse penv0 cmdOK).state = SCST_CMD_STATE_DEFAULT ∧
    (cdrom_parse penv0 cmdOK).cmd.retries = SCST_PASSTHROUGH_RETRIES ∧
    (cdrom_parse penv0 cmdOK).shift_supplied = (12 : Int) ∧
    (cdrom_parse penv0 cmdOK).cmd.dev = cmdOK.dev ∧
    (cdrom_parse penv0 cmdOK).cmd.annotation = penv0.generic_parse 12 :=
  C7_parse_reads_only penv0 cmdOK { block_shift := 12 } rfl

/-! ### Claim C8 -/

/-- C8: `cdrom_detach` frees exactly the record held in `dev->dh_priv` and
clears the pointer, so a post-detach lookup returns absent; it is total
(never fails), and it is idempotent: a second detach leaves the device
unchanged and frees nothing (`kfree(NULL)`). -/
theorem C8_detach_idempotent (dev : scst_device) :
    (cdrom_detach dev).dev.dh_priv = none ∧
    (cdrom_detach dev).freed = dev.dh_priv ∧
    cdrom_detach ((cdrom_detach dev).dev) =
      { dev := (cdrom_detach dev).dev, freed := none } := by
  simp [cdrom_detach]

/-! ### Claim C9 -/

/-- C9: `cdrom_attach` publishes the record into `dev->dh_priv` exactly when
it returns success; on every failure return every allocation performed so far
is freed and `dev->dh_priv` is untouched; on success the scratch buffer is
freed as well and the record is not. -/
theorem C9_attach_atomic (env : Env) (dev : scst_device) :
    ((cdrom_attach env dev).res = 0 →
      (cdrom_attach env dev).dh_priv = (cdrom_attach env dev).params_final ∧
      (cdrom_attach env dev).params_allocated = true ∧
      (cdrom_attach env dev).buffer_allocated = true ∧
      (cdrom_attach env dev).buffer_freed = true ∧
      (cdrom_attach env dev).params_freed = false) ∧
    ((cdrom_attach env dev).res ≠ 0 →
      (cdrom_attach env dev).dh_priv = dev.dh_priv ∧
      ((cdrom_attach env dev).params_allocated = true →
        (cdrom_attach env dev).params_freed = true) ∧
      ((cdrom_attach env dev).buffer_allocated = true →
        (cdrom_attach env dev).buffer_freed = true)) := by
  rw [cdrom_attach.eq_def]
  cases hdev : dev.scsi_dev with
  | none => simp [ENODEV]
  | some sdev =>
    by_cases hty : sdev.type ≠ dev.type
    · simp [hty, ENODEV]
    · by_cases hp : env.alloc_params_ok = false
      · simp [hty, hp, ENOMEM]
      · by_cases hb : env.alloc_buffer_ok = false
        · simp [hty, hp, hb, ENOMEM]
        · cases hloop : probe_loop env 0 env.uaRetries with
          | exhausted n => simp [hty, hp, hb, attach_finish, ENODEV]
          | done rc buf n =>
              by_cases hres : env.obtain_res = 0 <;>
                simp [hty, hp, hb, attach_finish, hres]

/-- C9, witness: the success branch of `C9_attach_atomic` at the
2048-sector fixture. -/
theorem C9_witness :
    (cdrom_attach envOK2048 devOK).dh_priv = (cdrom_attach envOK2048 devOK).params_final ∧
    (cdrom_attach envOK2048 devOK).params_allocated = true ∧
    (cdrom_attach envOK2048 devOK).buffer_allocated = true ∧
    (cdrom_attach envOK2048 devOK).buffer_freed = true ∧
    (cdrom_attach envOK2048 devOK).params_freed = false :=
  (C9_attach_atomic envOK2048 devOK).1 (by decide)

/-! ### Claim C10 -/

/-- C10: the completion path can never store a zero exponent: for every
command with a present record and every revised value, the record after
`cdrom_set_block_shift` holds a nonzero `block_shift` (the nonzero revised
value itself, or the default 11). -/
theorem C10_block_shift_nonzero (cmd : scst_cmd) (p : cdrom_params) (v : Int)
    (h : cmd.dev.dh_priv = some p) :
    ∃ p', (cdrom_set_block_shift cmd v).dev.dh_priv = some p' ∧
      p'.block_shift ≠ 0 := by
  refine ⟨if v = 0 then { block_shift := CDROM_DEF_BLOCK_SHIFT }
          else { block_shift := v }, ?_, ?_⟩
  · rw [cdrom_set_block_shift.eq_def, h]
    by_cases hv : v = 0 <;> simp [hv]
  · by_cases hv : v = 0 <;> simp [hv, CDROM_DEF_BLOCK_SHIFT]

/-- C10, witness at the sentinel value 0. -/
theorem C10_witness :
    ∃ p', (cdrom_set_block_shift cmdOK 0).dev.dh_priv = some p' ∧
      p'.block_shift ≠ 0 :=
  C10_block_shift_nonzero cmdOK { block_shift := 12 } 0 rfl

end ScstCdrom
